import Mathlib

/-!
Verification of the grid-editing core of the stadium-creator editor
(`src/app.js`).  The file embeds both variants found in the source:

* the flat 2D DOM editor (first IIFE, lines 1-204): a dense `cells` array of
  loosely-typed tile values, pointer strokes with a recorded stroke tool,
  a 100-entry history, resize clamped to `[8, 64]`;
* the 3D editor (second IIFE, lines 206-555): a sparse `items` list of
  placements, raycast coordinates mapped through
  `getGridCoordsFromIntersection`, a 200-entry history, resize clamped to
  `[8, 128]`.

JavaScript values that can be either a plain string or a `{type, prevType}`
object (the cell entries of the 2D variant) are embedded as the inductive
`Cell`; `JSON.stringify`/`JSON.parse` round trips are embedded at the level
of JSON trees (`Json`), with `undefined`-valued fields dropped exactly as
`JSON.stringify` drops them.
-/

namespace Stadium

/-- A 2D cell entry as JavaScript holds it.  The source stores either a
tile object `\x7btype, prevType?\x7d` or — after deselection, see
`selectToggle` — a bare string.  `obj t none` is an object whose
`prevType` field is absent or `undefined`. -/
inductive Cell where
  | strc (s : String)
  | obj (type : String) (prevType : Option String)
deriving DecidableEq

/-- JavaScript property access `v.type`: `undefined` (`none`) on a bare
string, the `type` field on an object. -/
def cellType : Cell → Option String
  | .strc _ => none
  | .obj t _ => some t

/-- JavaScript property access `v.prevType`. -/
def cellPrevType : Cell → Option String
  | .strc _ => none
  | .obj _ p => p

/-- The select branch of `handleCellAction` (src/app.js line 81):
`model.cells[idx].type==='selected' ? model.cells[idx].prevType || \x7btype:'empty'\x7d
: \x7btype:'selected', prevType: model.cells[idx].type\x7d`.
Note that `prevType` holds the prior `type` *string*, so the truthy branch
of `||` yields that bare string, not a tile object. -/
def selectToggle (c : Cell) : Cell :=
  if cellType c = some "selected" then
    match cellPrevType c with
    | some t => if t = "" then Cell.obj "empty" none else Cell.strc t
    | none => Cell.obj "empty" none
  else
    Cell.obj "selected" (cellType c)

/-- The 2D model `\x7bn, cells\x7d` (src/app.js lines 20-23). -/
structure Model2D where
  n : ℕ
  cells : List Cell
deriving DecidableEq

/-- `createEmptyModel` (src/app.js lines 20-23): `n*n` cells of
`\x7btype:'empty'\x7d`. -/
def createEmptyModel (n : ℕ) : Model2D :=
  ⟨n, List.replicate (n * n) (Cell.obj "empty" none)⟩

/-- A placed item of the 3D variant: `\x7btype, ix, iz\x7d`
(src/app.js line 379). -/
structure Item where
  type : String
  ix : ℤ
  iz : ℤ
deriving DecidableEq

/-- The 3D model `\x7bn, cell, items\x7d` (src/app.js line 286). -/
structure Model3D where
  n : ℕ
  cell : ℚ
  items : List Item
deriving DecidableEq

/-- JSON trees, the image of `JSON.stringify`; numbers as rationals. -/
inductive Json where
  | str (s : String)
  | num (q : ℚ)
  | arr (elems : List Json)
  | jobj (fields : List (String × Json))

/-- `JSON.stringify` of one 2D cell entry.  A bare string serializes as a
JSON string; an object serializes its fields in insertion order, and an
`undefined` `prevType` field is dropped. -/
def serializeCell : Cell → Json
  | .strc s => .str s
  | .obj t none => .jobj [("type", .str t)]
  | .obj t (some p) => .jobj [("type", .str t), ("prevType", .str p)]

/-- `JSON.parse` of one 2D cell entry. -/
def deserializeCell : Json → Option Cell
  | .str s => some (.strc s)
  | .jobj [("type", .str t)] => some (.obj t none)
  | .jobj [("type", .str t), ("prevType", .str p)] => some (.obj t (some p))
  | _ => none

/-- `JSON.parse` of an array of 2D cell entries. -/
def deserializeCellList : List Json → Option (List Cell)
  | [] => some []
  | j :: js =>
    match deserializeCell j, deserializeCellList js with
    | some c, some cs => some (c :: cs)
    | _, _ => none

/-- A natural number as a JSON number. -/
def natToJson (n : ℕ) : Json := .num (n : ℚ)

/-- Parse a JSON number back into a natural number. -/
def jsonToNat : Json → Option ℕ
  | .num q => if q.den = 1 ∧ 0 ≤ q.num then some q.num.toNat else none
  | _ => none

/-- An integer as a JSON number. -/
def intToJson (i : ℤ) : Json := .num (i : ℚ)

/-- Parse a JSON number back into an integer. -/
def jsonToInt : Json → Option ℤ
  | .num q => if q.den = 1 then some q.num else none
  | _ => none

/-- `JSON.stringify(model)` for the 2D model (src/app.js line 26). -/
def serializeModel2D (m : Model2D) : Json :=
  .jobj [("n", natToJson m.n), ("cells", .arr (m.cells.map serializeCell))]

/-- `JSON.parse` of a serialized 2D model (src/app.js line 110). -/
def deserializeModel2D : Json → Option Model2D
  | .jobj [("n", jn), ("cells", .arr js)] =>
    match jsonToNat jn, deserializeCellList js with
    | some n, some cs => some ⟨n, cs⟩
    | _, _ => none
  | _ => none

/-- `JSON.stringify` of one 3D item. -/
def serializeItem (it : Item) : Json :=
  .jobj [("type", .str it.type), ("ix", intToJson it.ix), ("iz", intToJson it.iz)]

/-- `JSON.parse` of one 3D item. -/
def deserializeItem : Json → Option Item
  | .jobj [("type", .str t), ("ix", jx), ("iz", jz)] =>
    match jsonToInt jx, jsonToInt jz with
    | some x, some z => some ⟨t, x, z⟩
    | _, _ => none
  | _ => none

/-- `JSON.parse` of an array of 3D items. -/
def deserializeItemList : List Json → Option (List Item)
  | [] => some []
  | j :: js =>
    match deserializeItem j, deserializeItemList js with
    | some it, some its => some (it :: its)
    | _, _ => none

/-- `JSON.stringify(model)` for the 3D model (src/app.js line 290). -/
def serializeModel3D (m : Model3D) : Json :=
  .jobj [("n", natToJson m.n), ("cell", .num m.cell),
         ("items", .arr (m.items.map serializeItem))]

/-- `JSON.parse` of a serialized 3D model (src/app.js line 474). -/
def deserializeModel3D : Json → Option Model3D
  | .jobj [("n", jn), ("cell", .num q), ("items", .arr js)] =>
    match jsonToNat jn, deserializeItemList js with
    | some n, some its => some ⟨n, q, its⟩
    | _, _ => none
  | _ => none

@[simp]
lemma deserializeCell_serializeCell (c : Cell) :
    deserializeCell (serializeCell c) = some c := by
  cases c with
  | strc s => rfl
  | obj t p => cases p <;> rfl

@[simp]
lemma deserializeCellList_map (l : List Cell) :
    deserializeCellList (l.map serializeCell) = some l := by
  induction l with
  | nil => rfl
  | cons c cs ih => simp [deserializeCellList, ih]

@[simp]
lemma jsonToNat_natToJson (n : ℕ) : jsonToNat (natToJson n) = some n := by
  simp [jsonToNat, natToJson, Rat.den_natCast, Rat.num_natCast]

@[simp]
lemma jsonToInt_intToJson (i : ℤ) : jsonToInt (intToJson i) = some i := by
  simp [jsonToInt, intToJson, Rat.den_intCast, Rat.num_intCast]

@[simp]
lemma deserializeItem_serializeItem (it : Item) :
    deserializeItem (serializeItem it) = some it := by
  simp [deserializeItem, serializeItem]

@[simp]
lemma deserializeItemList_map (l : List Item) :
    deserializeItemList (l.map serializeItem) = some l := by
  induction l with
  | nil => rfl
  | cons it its ih => simp [deserializeItemList, ih]

@[simp]
lemma deserializeModel2D_serializeModel2D (m : Model2D) :
    deserializeModel2D (serializeModel2D m) = some m := by
  simp [deserializeModel2D, serializeModel2D]

@[simp]
lemma deserializeModel3D_serializeModel3D (m : Model3D) :
    deserializeModel3D (serializeModel3D m) = some m := by
  simp [deserializeModel3D, serializeModel3D]

/-- `saveHistory` (src/app.js lines 25-28 with capacity 100, lines 289-292
with capacity 200): `history.push(JSON.stringify(model))`, then
`if(history.length>cap) history.shift()`. -/
def saveHistory {α : Type} (cap : ℕ) (h : List α) (snap : α) : List α :=
  let pushed := h ++ [snap]
  if cap < pushed.length then pushed.tail else pushed

/-- Folding `saveHistory` over a push sequence keeps exactly the youngest
`cap` snapshots, in order. -/
lemma foldl_saveHistory {α : Type} (cap : ℕ) (hcap : 1 ≤ cap) (l : List α) :
    List.foldl (saveHistory cap) [] l = l.drop (l.length - cap) := by
  induction l using List.reverseRecOn with
  | nil => simp
  | append_singleton l a ih =>
    rw [List.foldl_concat, ih]
    by_cases hlen : l.length < cap
    · have h1 : l.length - cap = 0 := by omega
      have h2 : (l ++ [a]).length - cap = 0 := by simp; omega
      simp only [h1, h2, List.drop_zero, saveHistory]
      rw [if_neg (by simp; omega)]
    · have hle : cap ≤ l.length := by omega
      have hdl : (l.drop (l.length - cap)).length = cap := by
        rw [List.length_drop]; omega
      simp only [saveHistory]
      rw [if_pos (by rw [List.length_append, hdl]; simp)]
      have hne : l.drop (l.length - cap) ≠ [] := by
        intro h; rw [h] at hdl; simp at hdl; omega
      calc (l.drop (l.length - cap) ++ [a]).tail
          = (l.drop (l.length - cap)).tail ++ [a] := by
            cases h : l.drop (l.length - cap) with
            | nil => exact absurd h hne
            | cons x xs => simp
        _ = l.drop (l.length - cap + 1) ++ [a] := by rw [List.tail_drop]
        _ = (l ++ [a]).drop (l.length - cap + 1) := by
            rw [List.drop_append_of_le_length (by omega)]
        _ = (l ++ [a]).drop ((l ++ [a]).length - cap) := by
            congr 1; simp; omega

/-- Membership after a `saveHistory` push comes from the old stack or is the
pushed snapshot. -/
lemma mem_saveHistory {α : Type} {cap : ℕ} {h : List α} {snap a : α}
    (ha : a ∈ saveHistory cap h snap) : a ∈ h ∨ a = snap := by
  simp only [saveHistory] at ha
  split at ha
  · have := List.mem_of_mem_tail ha
    rcases List.mem_append.mp this with h1 | h1
    · exact Or.inl h1
    · exact Or.inr (by simpa using h1)
  · rcases List.mem_append.mp ha with h1 | h1
    · exact Or.inl h1
    · exact Or.inr (by simpa using h1)

/-- The snapshot just pushed is the one a single pop returns. -/
lemma getLast?_saveHistory {α : Type} (cap : ℕ) (hcap : 1 ≤ cap)
    (h : List α) (snap : α) :
    (saveHistory cap h snap).getLast? = some snap := by
  simp only [saveHistory]
  split
  · cases h with
    | nil => simp_all
    | cons x xs => simp [List.getLast?_concat]
  · exact List.getLast?_concat _

/-- Length after a `saveHistory` push, when the stack respects capacity. -/
lemma length_saveHistory {α : Type} (cap : ℕ) (h : List α) (snap : α)
    (hle : h.length ≤ cap) :
    (saveHistory cap h snap).length = min (h.length + 1) cap := by
  simp only [saveHistory]
  split <;> rename_i hc <;> simp at hc ⊢ <;> omega

lemma mem_of_getLast?_eq {α : Type} :
    ∀ {l : List α} {a : α}, l.getLast? = some a → a ∈ l := by
  intro l
  induction l with
  | nil => intro a h; simp at h
  | cons x xs ih =>
    intro a h
    cases xs with
    | nil => simp [List.getLast?] at h; simp [h]
    | cons y ys =>
      rw [List.getLast?_cons_cons] at h
      exact List.mem_cons_of_mem _ (ih h)

lemma mem_of_mem_dropLast {α : Type} :
    ∀ {l : List α} {a : α}, a ∈ l.dropLast → a ∈ l := by
  intro l
  induction l with
  | nil => intro a h; simp at h
  | cons x xs ih =>
    intro a h
    cases xs with
    | nil => simp at h
    | cons y ys =>
      rw [List.dropLast_cons₂] at h
      rcases List.mem_cons.mp h with h1 | h1
      · simp [h1]
      · exact List.mem_cons_of_mem _ (ih h1)

/-! ## The flat 2D variant (src/app.js lines 1-204) -/

/-- The module-level mutable state of the 2D editor: `gridSize`, `cellPx`,
`currentTool`, `model`, `history` (lines 14-18) and the stroke state
`isPointerDown`, `pointerTool` (lines 54-55). -/
structure State2D where
  gridSize : ℕ
  cellPx : ℤ
  currentTool : String
  isPointerDown : Bool
  pointerTool : Option String
  model : Model2D
  history : List Json

/-- `handleCellAction` (src/app.js lines 74-87): push a snapshot, then
erase / select-toggle / paint the cell at `idx` according to the currently
selected tool. -/
def handleCellAction (s : State2D) (idx : ℕ) : State2D :=
  let hist := saveHistory 100 s.history (serializeModel2D s.model)
  let c := s.model.cells.getD idx (Cell.obj "empty" none)
  let cells :=
    if s.currentTool = "erase" then s.model.cells.set idx (Cell.obj "empty" none)
    else if s.currentTool = "select" then s.model.cells.set idx (selectToggle c)
    else s.model.cells.set idx (Cell.obj s.currentTool none)
  { s with history := hist, model := ⟨s.model.n, cells⟩ }

/-- Grid dimension computed by the 2D resize handler (src/app.js line 99):
`Math.max(8, Math.min(64, parseInt(gridSizeInput.value,10)||24))`.  The
`||24` default fires on `NaN` and on the integer input `0`. -/
def resizeDim2D (v : ℤ) : ℤ := max 8 (min 64 (if v = 0 then 24 else v))

/-- Cell pixel size computed by the 2D resize handler (src/app.js line 100). -/
def resizePx2D (v : ℤ) : ℤ := max 8 (min 64 (if v = 0 then 18 else v))

/-- Input events the 2D editor reacts to.  Keyboard shortcuts reach the same
code paths (`selectTool` sets `currentTool`; ctrl-z clicks the undo button),
so they are represented by the same constructors. -/
inductive Event2D where
  | toolClick (t : String)
  | pointerDown (idx : ℕ)
  | pointerEnter (idx : ℕ)
  | pointerUp
  | undoClick
  | clearClick
  | resizeClick (vn vpx : ℤ)

/-- One event-handler dispatch of the 2D editor:
`onPointerDown`/`onPointerEnter`/`onPointerUp` (lines 57-72), the tool
buttons (lines 90-96), and the resize/undo/clear click handlers
(lines 98-118).  `JSON.parse` of a stored snapshot never fails, so the
`Option.getD` fallback in the undo branch is unreachable. -/
def step2D (s : State2D) (e : Event2D) : State2D :=
  match e with
  | .toolClick t => { s with currentTool := t }
  | .pointerDown idx =>
      handleCellAction { s with isPointerDown := true, pointerTool := some s.currentTool } idx
  | .pointerEnter idx =>
      if s.isPointerDown ∧ s.pointerTool = some s.currentTool then
        handleCellAction s idx
      else s
  | .pointerUp => { s with isPointerDown := false, pointerTool := none }
  | .undoClick =>
      match s.history.getLast? with
      | none => s
      | some j =>
          { s with history := s.history.dropLast,
                   model := (deserializeModel2D j).getD s.model }
  | .clearClick =>
      { s with history := saveHistory 100 s.history (serializeModel2D s.model),
               model := createEmptyModel s.gridSize }
  | .resizeClick vn vpx =>
      let n := (resizeDim2D vn).toNat
      { s with gridSize := n, cellPx := resizePx2D vpx,
               model := createEmptyModel n, history := [] }

/-- The 2D editor's state right after init (lines 14-18, 202): the page's
initial inputs give `gridSize` and `cellPx`, the tool starts as `pitch`,
the model is empty and the history empty. -/
def initState2D (n0 : ℕ) (px0 : ℤ) : State2D :=
  ⟨n0, px0, "pitch", false, none, createEmptyModel n0, []⟩

/-! ## The 3D variant (src/app.js lines 206-555) -/

/-- The module-level mutable state of the 3D editor: `gridSize`, `cellSize`
(lines 248-249), `currentTool` (line 295), `model`, `history`
(lines 286-287) and `isPointerDown` (line 414). -/
structure State3D where
  gridSizeV : ℕ
  cellSizeV : ℚ
  currentTool : String
  isPointerDown : Bool
  model : Model3D
  history : List Json

/-- `getGridCoordsFromIntersection` (src/app.js lines 348-357): divide each
axis by the cell size, add the `0.00001` epsilon, floor, then clamp into
`[0, n-1]`. -/
def getGridCoordsFromIntersection (n : ℕ) (cell : ℚ) (px pz : ℚ) : ℤ × ℤ :=
  let x : ℤ := ⌊px / cell + 1 / 100000⌋
  let z : ℤ := ⌊pz / cell + 1 / 100000⌋
  (max 0 (min ((n : ℤ) - 1) x), max 0 (min ((n : ℤ) - 1) z))

/-- The 3D filter predicate keeping every item not at `(ix, iz)`
(src/app.js lines 369 and 385). -/
def keepOther (ix iz : ℤ) (it : Item) : Bool := !(it.ix == ix && it.iz == iz)

/-- The model part of `addItem` (src/app.js lines 365-380): drop any
occupant of the cell, then push the new item. -/
def addItemModel (t : String) (ix iz : ℤ) (items : List Item) : List Item :=
  items.filter (keepOther ix iz) ++ [⟨t, ix, iz⟩]

/-- `addItem` (src/app.js lines 365-380): snapshot, then replace the cell's
occupant with the new item. -/
def addItem (s : State3D) (t : String) (ix iz : ℤ) : State3D :=
  { s with history := saveHistory 200 s.history (serializeModel3D s.model),
           model := { s.model with items := addItemModel t ix iz s.model.items } }

/-- `removeItemAt` (src/app.js lines 382-393): snapshot, then drop the
cell's occupant. -/
def removeItemAt (s : State3D) (ix iz : ℤ) : State3D :=
  { s with history := saveHistory 200 s.history (serializeModel3D s.model),
           model := { s.model with items := s.model.items.filter (keepOther ix iz) } }

/-- `handlePointerEvent` (src/app.js lines 427-454).  `p` is the raycast
result: `none` when the ray misses the placement plane (the handler returns
with no mutation).  The hit point is offset by
`(n*cell)/2 - cell/2` on each axis (line 438) before the grid lookup.
The `select` tool only applies a transient visual highlight, mutating
neither model nor history. -/
def handlePointerEvent3D (s : State3D) (p : Option (ℚ × ℚ)) : State3D :=
  match p with
  | none => s
  | some pt =>
      let off := ((s.model.n : ℚ) * s.model.cell) / 2 - s.model.cell / 2
      let c := getGridCoordsFromIntersection s.model.n s.model.cell
          (pt.1 + off) (pt.2 + off)
      if s.currentTool = "erase" then removeItemAt s c.1 c.2
      else if s.currentTool = "select" then s
      else addItem s s.currentTool c.1 c.2

/-- Grid dimension computed by the 3D resize handler (src/app.js line 458):
`Math.max(8, Math.min(128, parseInt(gridSizeInput.value,10) || 24))`. -/
def resizeDim3D (v : ℤ) : ℤ := max 8 (min 128 (if v = 0 then 24 else v))

/-- Cell size computed by the 3D resize handler (src/app.js line 459). -/
def resizeCell3D (q : ℚ) : ℚ := max (1 / 2) (min 8 (if q = 0 then 2 else q))

/-- Input events the 3D editor reacts to.  Pointer events carry the raycast
intersection (`none` = the ray missed the placement plane). -/
inductive Event3D where
  | toolClick (t : String)
  | pointerDown (p : Option (ℚ × ℚ))
  | pointerMove (p : Option (ℚ × ℚ))
  | pointerUp
  | undoClick
  | clearClick
  | resizeClick (vn : ℤ) (vcell : ℚ)

/-- One event-handler dispatch of the 3D editor (src/app.js lines 296-302,
414-425, 457-484).  The pointer-move handler places whenever the pointer is
down and the current tool is not `select` — it keeps no record of the tool
held at pointer-down. -/
def step3D (s : State3D) (e : Event3D) : State3D :=
  match e with
  | .toolClick t => { s with currentTool := t }
  | .pointerDown p => handlePointerEvent3D { s with isPointerDown := true } p
  | .pointerMove p =>
      if s.isPointerDown ∧ s.currentTool ≠ "select" then handlePointerEvent3D s p
      else s
  | .pointerUp => { s with isPointerDown := false }
  | .undoClick =>
      match s.history.getLast? with
      | none => s
      | some j =>
          { s with history := s.history.dropLast,
                   model := (deserializeModel3D j).getD s.model }
  | .clearClick =>
      { s with history := saveHistory 200 s.history (serializeModel3D s.model),
               model := { s.model with items := [] } }
  | .resizeClick vn vcell =>
      let n := (resizeDim3D vn).toNat
      let c := resizeCell3D vcell
      { s with gridSizeV := n, cellSizeV := c,
               model := { n := n, cell := c, items := [] }, history := [] }

/-- The 3D editor's state right after init (lines 248-249, 286-287, 295,
549): the page defaults give `n = 24` and `cell = 2`, the tool starts as
`pitch`. -/
def initState3D : State3D :=
  ⟨24, 2, "pitch", false, ⟨24, 2, []⟩, []⟩

/-! ## Claim theorems -/

/-- Claim C2: for every sequence of pushes starting from the empty stack,
the history stack's length never exceeds its capacity (100 in the 2D
variant, 200 in the 3D variant); after capacity+1 pushes the oldest
snapshot has been evicted from the head (the stack equals the tail of the
push sequence), and the most recent push is the one a single pop (of the
live tail end) returns. -/
theorem c2_history_capacity {α : Type} (l2 l3 lA lB : List α) (x : α)
    (hA : lA.length = 101) (hB : lB.length = 201) :
    (List.foldl (saveHistory 100) ([] : List α) l2).length ≤ 100 ∧
    (List.foldl (saveHistory 200) ([] : List α) l3).length ≤ 200 ∧
    List.foldl (saveHistory 100) ([] : List α) lA = lA.tail ∧
    List.foldl (saveHistory 200) ([] : List α) lB = lB.tail ∧
    (List.foldl (saveHistory 100) ([] : List α) (l2 ++ [x])).getLast? = some x ∧
    (List.foldl (saveHistory 200) ([] : List α) (l3 ++ [x])).getLast? = some x := by
  refine ⟨?_, ?_, ?_, ?_, ?_, ?_⟩
  · rw [foldl_saveHistory 100 (by omega), List.length_drop]; omega
  · rw [foldl_saveHistory 200 (by omega), List.length_drop]; omega
  · rw [foldl_saveHistory 100 (by omega), hA]; norm_num [List.drop_one]
  · rw [foldl_saveHistory 200 (by omega), hB]; norm_num [List.drop_one]
  · rw [List.foldl_concat]; exact getLast?_saveHistory 100 (by omega) _ _
  · rw [List.foldl_concat]; exact getLast?_saveHistory 200 (by omega) _ _

/-- Witness for C2 at concrete push sequences of lengths 0, 101 and 201. -/
theorem c2_history_capacity_witness :
    (List.foldl (saveHistory 100) ([] : List ℕ) []).length ≤ 100 ∧
    (List.foldl (saveHistory 200) ([] : List ℕ) []).length ≤ 200 ∧
    List.foldl (saveHistory 100) ([] : List ℕ) (List.range 101) =
      (List.range 101).tail ∧
    List.foldl (saveHistory 200) ([] : List ℕ) (List.range 201) =
      (List.range 201).tail ∧
    (List.foldl (saveHistory 100) ([] : List ℕ) ([] ++ [7])).getLast? = some 7 ∧
    (List.foldl (saveHistory 200) ([] : List ℕ) ([] ++ [7])).getLast? = some 7 :=
  c2_history_capacity [] [] (List.range 101) (List.range 201) 7
    (by simp) (by simp)

/-- Claim C3: `getGridCoordsFromIntersection` divides each axis coordinate
by the cell size, adds the epsilon 1e-5, floors, and clamps; for every
rational input position (negative and overflowing included), dimension
`n ≥ 1` and positive cell size, the output lies within `[0, n-1]` on both
axes.  The embedding is a pure function, so it is deterministic. -/
theorem c3_toGridCoord_in_range (n : ℕ) (cell px pz : ℚ)
    (hn : 1 ≤ n) (_hc : 0 < cell) :
    getGridCoordsFromIntersection n cell px pz =
      (max 0 (min ((n : ℤ) - 1) ⌊px / cell + 1 / 100000⌋),
       max 0 (min ((n : ℤ) - 1) ⌊pz / cell + 1 / 100000⌋)) ∧
    0 ≤ (getGridCoordsFromIntersection n cell px pz).1 ∧
    (getGridCoordsFromIntersection n cell px pz).1 ≤ (n : ℤ) - 1 ∧
    0 ≤ (getGridCoordsFromIntersection n cell px pz).2 ∧
    (getGridCoordsFromIntersection n cell px pz).2 ≤ (n : ℤ) - 1 := by
  have hn' : (1 : ℤ) ≤ (n : ℤ) := by exact_mod_cast hn
  refine ⟨rfl, ?_, ?_, ?_, ?_⟩ <;>
    simp only [getGridCoordsFromIntersection] <;> omega

/-- Witness for C3 at dimension 24, cell size 2, and the out-of-range
position `(-5, 1000)`. -/
theorem c3_toGridCoord_in_range_witness :
    0 ≤ (getGridCoordsFromIntersection 24 2 (-5) 1000).1 ∧
    (getGridCoordsFromIntersection 24 2 (-5) 1000).1 ≤ ((24 : ℕ) : ℤ) - 1 ∧
    0 ≤ (getGridCoordsFromIntersection 24 2 (-5) 1000).2 ∧
    (getGridCoordsFromIntersection 24 2 (-5) 1000).2 ≤ ((24 : ℕ) : ℤ) - 1 := by
  have h := c3_toGridCoord_in_range 24 2 (-5) 1000 (by norm_num) (by norm_num)
  exact ⟨h.2.1, h.2.2.1, h.2.2.2.1, h.2.2.2.2⟩

/-- Claim C4 counterexample: the claim says both variants clamp the resize
dimension input into [8,128]; the 2D variant (src/app.js line 99) clamps
into [8,64], so at integer input 100 it yields 64 while the claimed clamp
yields 100. -/
theorem c4_counterexample :
    resizeDim2D 100 = 64 ∧ max 8 (min 128 (100 : ℤ)) = 100 ∧
    resizeDim2D 100 ≠ max 8 (min 128 (100 : ℤ)) := by decide

/-- Claim C4 (amended): the 2D resize clamps the dimension input into
[8,64] and the 3D resize into [8,128]; the integer input 0 is first
replaced by the default 24 (a consequence of `parseInt(...) || 24`); the
input is clamped, never rejected, and in both variants every post-resize
dimension N satisfies 8 ≤ N ≤ 128. -/
theorem c4_resize_clamped (v : ℤ) (hv : v ≠ 0) :
    resizeDim2D v = max 8 (min 64 v) ∧
    resizeDim3D v = max 8 (min 128 v) ∧
    8 ≤ resizeDim2D v ∧ resizeDim2D v ≤ 64 ∧
    8 ≤ resizeDim3D v ∧ resizeDim3D v ≤ 128 ∧
    resizeDim2D 0 = 24 ∧ resizeDim3D 0 = 24 := by
  simp only [resizeDim2D, resizeDim3D, if_neg hv]
  refine ⟨trivial, trivial, ?_, ?_, ?_, ?_, by decide, by decide⟩ <;> omega

/-- Witness for C4 (amended) at the integer input 100. -/
theorem c4_resize_clamped_witness :
    resizeDim2D 100 = max 8 (min 64 (100 : ℤ)) ∧
    resizeDim3D 100 = max 8 (min 128 (100 : ℤ)) ∧
    8 ≤ resizeDim2D 100 ∧ resizeDim2D 100 ≤ 64 ∧
    8 ≤ resizeDim3D 100 ∧ resizeDim3D 100 ≤ 128 ∧
    resizeDim2D 0 = 24 ∧ resizeDim3D 0 = 24 :=
  c4_resize_clamped 100 (by decide)

/-- Claim C5 (code bug): in the 2D variant, selecting a `pitch` cell stores
only the prior *kind string* in `prevType`; deselecting then evaluates
`prevType || \x7btype:'empty'\x7d` to that bare truthy string, so the cell
becomes the string value `"pitch"` — not a well-formed tile object of the
prior kind — and its `.type` reads as `undefined`. -/
theorem c5_select_restore_bug :
    selectToggle (Cell.obj "pitch" none) = Cell.obj "selected" (some "pitch") ∧
    selectToggle (Cell.obj "selected" (some "pitch")) = Cell.strc "pitch" ∧
    cellType (Cell.strc "pitch") = none ∧
    Cell.strc "pitch" ≠ Cell.obj "pitch" none := by decide

/-- Claim C6: serializing then deserializing yields a model equal to the
original in dimension and in every cell/item, including the `prevType`
prior-state field carried by selected cells, for every model state of
either variant (reachable states included). -/
theorem c6_serialize_roundtrip :
    (∀ m : Model2D, deserializeModel2D (serializeModel2D m) = some m) ∧
    (∀ m : Model3D, deserializeModel3D (serializeModel3D m) = some m) :=
  ⟨fun m => deserializeModel2D_serializeModel2D m,
   fun m => deserializeModel3D_serializeModel3D m⟩

lemma filter_keepOther_idem (ix iz : ℤ) (l : List Item) :
    (l.filter (keepOther ix iz)).filter (keepOther ix iz) =
      l.filter (keepOther ix iz) := by
  rw [List.filter_filter]
  congr 1
  funext it
  rw [Bool.and_self]

lemma addItemModel_idem (t : String) (ix iz : ℤ) (l : List Item) :
    addItemModel t ix iz (addItemModel t ix iz l) = addItemModel t ix iz l := by
  unfold addItemModel
  rw [List.filter_append, filter_keepOther_idem]
  simp [keepOther]

/-- Claim C7: painting tool T at a coordinate twice in succession (no tool
change in between) yields, in both variants, a model state after the second
paint identical to the state after the first; painting an occupied
coordinate replaces the occupant — the new item is present and is the only
item at that coordinate — rather than being rejected. -/
theorem c7_paint_idempotent (s : State2D) (idx : ℕ) (s3 : State3D) (p : ℚ × ℚ)
    (hT : s.currentTool = "pitch" ∨ s.currentTool = "stand" ∨
          s.currentTool = "dugout" ∨ s.currentTool = "flag")
    (hT3 : s3.currentTool = "pitch" ∨ s3.currentTool = "stand" ∨
           s3.currentTool = "dugout" ∨ s3.currentTool = "flag") :
    (handleCellAction (handleCellAction s idx) idx).model =
      (handleCellAction s idx).model ∧
    (handlePointerEvent3D (handlePointerEvent3D s3 (some p)) (some p)).model =
      (handlePointerEvent3D s3 (some p)).model ∧
    (∀ (t : String) (ix iz : ℤ) (l : List Item),
      Item.mk t ix iz ∈ addItemModel t ix iz l ∧
      ∀ it ∈ addItemModel t ix iz l, it.ix = ix → it.iz = iz →
        it = Item.mk t ix iz) := by
  refine ⟨?_, ?_, ?_⟩
  · rcases hT with h | h | h | h <;>
      simp [handleCellAction, h, List.set_set]
  · rcases hT3 with h | h | h | h <;>
      simp [handlePointerEvent3D, h, addItem, addItemModel_idem]
  · intro t ix iz l
    constructor
    · simp [addItemModel]
    · intro it hit hx hz
      rcases List.mem_append.mp hit with h1 | h1
      · have := List.of_mem_filter h1
        simp [keepOther, hx, hz] at this
      · simpa using h1

/-- Witness for C7: painting `pitch` twice at cell 0 of a fresh 2D editor,
and twice at the raycast point `(0, 0)` of a fresh 3D editor. -/
theorem c7_paint_idempotent_witness :
    (handleCellAction (handleCellAction (initState2D 24 18) 0) 0).model =
      (handleCellAction (initState2D 24 18) 0).model ∧
    (handlePointerEvent3D (handlePointerEvent3D initState3D (some (0, 0)))
        (some (0, 0))).model =
      (handlePointerEvent3D initState3D (some (0, 0))).model ∧
    (∀ (t : String) (ix iz : ℤ) (l : List Item),
      Item.mk t ix iz ∈ addItemModel t ix iz l ∧
      ∀ it ∈ addItemModel t ix iz l, it.ix = ix → it.iz = iz →
        it = Item.mk t ix iz) :=
  c7_paint_idempotent (initState2D 24 18) 0 initState3D (0, 0)
    (Or.inl rfl) (Or.inl rfl)

/-- Claim C10: in both variants the clear handler leaves the grid dimension
and the cell size unchanged, pushes exactly one history snapshot (taken
before the cells/items are emptied), and empties the layout; an undo
immediately after clear therefore restores the pre-clear model — layout and
dimension — exactly. -/
theorem c10_clear_then_undo (s : State2D) (s3 : State3D)
    (h : s.history.length ≤ 100) (h3 : s3.history.length ≤ 200) :
    (step2D s Event2D.clearClick).gridSize = s.gridSize ∧
    (step2D s Event2D.clearClick).cellPx = s.cellPx ∧
    (step2D s Event2D.clearClick).model = createEmptyModel s.gridSize ∧
    (step2D s Event2D.clearClick).history.length =
      min (s.history.length + 1) 100 ∧
    (step2D (step2D s Event2D.clearClick) Event2D.undoClick).model = s.model ∧
    (step3D s3 Event3D.clearClick).model.n = s3.model.n ∧
    (step3D s3 Event3D.clearClick).model.cell = s3.model.cell ∧
    (step3D s3 Event3D.clearClick).gridSizeV = s3.gridSizeV ∧
    (step3D s3 Event3D.clearClick).cellSizeV = s3.cellSizeV ∧
    (step3D s3 Event3D.clearClick).model.items = [] ∧
    (step3D s3 Event3D.clearClick).history.length =
      min (s3.history.length + 1) 200 ∧
    (step3D (step3D s3 Event3D.clearClick) Event3D.undoClick).model =
      s3.model := by
  have hg2 := getLast?_saveHistory 100 (by omega) s.history (serializeModel2D s.model)
  have hg3 := getLast?_saveHistory 200 (by omega) s3.history (serializeModel3D s3.model)
  refine ⟨rfl, rfl, rfl, length_saveHistory 100 _ _ h, ?_, rfl, rfl, rfl, rfl,
    rfl, length_saveHistory 200 _ _ h3, ?_⟩
  · simp [step2D, hg2]
  · simp [step3D, hg3]

/-- Witness for C10 on editors that have painted once (2D: cell 0 painted;
3D: a pitch tile placed), then clear. -/
theorem c10_clear_then_undo_witness :
    (step2D (handleCellAction (initState2D 24 18) 0) Event2D.clearClick).gridSize =
      (handleCellAction (initState2D 24 18) 0).gridSize ∧
    (step2D (handleCellAction (initState2D 24 18) 0) Event2D.clearClick).cellPx =
      (handleCellAction (initState2D 24 18) 0).cellPx ∧
    (step2D (handleCellAction (initState2D 24 18) 0) Event2D.clearClick).model =
      createEmptyModel (handleCellAction (initState2D 24 18) 0).gridSize ∧
    (step2D (handleCellAction (initState2D 24 18) 0) Event2D.clearClick).history.length =
      min ((handleCellAction (initState2D 24 18) 0).history.length + 1) 100 ∧
    (step2D (step2D (handleCellAction (initState2D 24 18) 0) Event2D.clearClick)
        Event2D.undoClick).model =
      (handleCellAction (initState2D 24 18) 0).model ∧
    (step3D (addItem initState3D "pitch" 11 11) Event3D.clearClick).model.n =
      (addItem initState3D "pitch" 11 11).model.n ∧
    (step3D (addItem initState3D "pitch" 11 11) Event3D.clearClick).model.cell =
      (addItem initState3D "pitch" 11 11).model.cell ∧
    (step3D (addItem initState3D "pitch" 11 11) Event3D.clearClick).gridSizeV =
      (addItem initState3D "pitch" 11 11).gridSizeV ∧
    (step3D (addItem initState3D "pitch" 11 11) Event3D.clearClick).cellSizeV =
      (addItem initState3D "pitch" 11 11).cellSizeV ∧
    (step3D (addItem initState3D "pitch" 11 11) Event3D.clearClick).model.items = [] ∧
    (step3D (addItem initState3D "pitch" 11 11) Event3D.clearClick).history.length =
      min ((addItem initState3D "pitch" 11 11).history.length + 1) 200 ∧
    (step3D (step3D (addItem initState3D "pitch" 11 11) Event3D.clearClick)
        Event3D.undoClick).model =
      (addItem initState3D "pitch" 11 11).model :=
  c10_clear_then_undo (handleCellAction (initState2D 24 18) 0)
    (addItem initState3D "pitch" 11 11) (by simp [handleCellAction, initState2D, saveHistory])
    (by simp [addItem, initState3D, saveHistory])

/-- Claim C1 (amended): in the 2D variant the pointer-enter handler places
only while the currently selected tool equals the stroke tool recorded at
pointer-down, so after pointer-down with tool A and a mid-drag switch to a
tool B ≠ A (no intervening pointer-up), every further pointer-enter of that
stroke is a complete no-op — no tile of tool B is placed.  The 3D variant
records no stroke tool: its pointer-move handler places with the
*currently* selected tool whenever the pointer is down and the tool is not
`select`, so there a mid-drag switch does paint with the new tool (see the
counterexample). -/
theorem c1_stroke_tool_guard (s : State2D) (B : String) (i0 : ℕ)
    (moves : List ℕ) (s3 : State3D) (pt : ℚ × ℚ)
    (hB : B ≠ s.currentTool)
    (h3 : s3.isPointerDown = true) (hsel : s3.currentTool ≠ "select")
    (her : s3.currentTool ≠ "erase") :
    List.foldl (fun st i => step2D st (Event2D.pointerEnter i))
      (step2D (step2D s (Event2D.pointerDown i0)) (Event2D.toolClick B)) moves =
      step2D (step2D s (Event2D.pointerDown i0)) (Event2D.toolClick B) ∧
    step3D s3 (Event3D.pointerMove (some pt)) = handlePointerEvent3D s3 (some pt) ∧
    ∃ ix iz : ℤ,
      (handlePointerEvent3D s3 (some pt)).model.items.getLast? =
        some (Item.mk s3.currentTool ix iz) := by
  refine ⟨?_, ?_, ?_⟩
  · set s1 := step2D (step2D s (Event2D.pointerDown i0)) (Event2D.toolClick B)
      with hs1
    have hpt : s1.pointerTool = some s.currentTool := by rw [hs1]; rfl
    have hct : s1.currentTool = B := by rw [hs1]; rfl
    have hfix : ∀ i, step2D s1 (Event2D.pointerEnter i) = s1 := by
      intro i
      simp only [step2D]
      rw [if_neg]
      intro hcon
      have h2 := hcon.2
      rw [hpt, hct] at h2
      exact hB (Option.some.inj h2).symm
    induction moves with
    | nil => rfl
    | cons m ms ih => rw [List.foldl_cons, hfix m]; exact ih
  · simp only [step3D]
    rw [if_pos ⟨h3, hsel⟩]
  · simp only [handlePointerEvent3D]
    rw [if_neg her, if_neg hsel]
    refine ⟨(getGridCoordsFromIntersection s3.model.n s3.model.cell
        (pt.1 + ((s3.model.n : ℚ) * s3.model.cell / 2 - s3.model.cell / 2))
        (pt.2 + ((s3.model.n : ℚ) * s3.model.cell / 2 - s3.model.cell / 2))).1,
      (getGridCoordsFromIntersection s3.model.n s3.model.cell
        (pt.1 + ((s3.model.n : ℚ) * s3.model.cell / 2 - s3.model.cell / 2))
        (pt.2 + ((s3.model.n : ℚ) * s3.model.cell / 2 - s3.model.cell / 2))).2, ?_⟩
    simp only [addItem, addItemModel]
    exact List.getLast?_concat _

/-- Witness for C1 (amended): a fresh 2D editor (tool `pitch`), pointer-down
at cell 0, switch to `stand`, then pointer-enters over cells 0 and 1; and a
3D editor mid-drag holding `pitch` moved over the raycast point `(0, 0)`. -/
theorem c1_stroke_tool_guard_witness :
    List.foldl (fun st i => step2D st (Event2D.pointerEnter i))
      (step2D (step2D (initState2D 24 18) (Event2D.pointerDown 0))
        (Event2D.toolClick "stand")) [0, 1] =
      step2D (step2D (initState2D 24 18) (Event2D.pointerDown 0))
        (Event2D.toolClick "stand") ∧
    step3D { initState3D with isPointerDown := true }
        (Event3D.pointerMove (some (0, 0))) =
      handlePointerEvent3D { initState3D with isPointerDown := true }
        (some (0, 0)) ∧
    ∃ ix iz : ℤ,
      (handlePointerEvent3D { initState3D with isPointerDown := true }
          (some (0, 0))).model.items.getLast? =
        some (Item.mk { initState3D with isPointerDown := true }.currentTool ix iz) :=
  c1_stroke_tool_guard (initState2D 24 18) "stand" 0 [0, 1]
    { initState3D with isPointerDown := true } (0, 0)
    (by decide) rfl (by decide) (by decide)

/-- Claim C1 counterexample: in the 3D variant, pointer-down with `pitch`
places a pitch tile at grid cell (11,11); switching the tool to `stand`
without any pointer-up and moving the pointer then places a `stand` tile —
the new tool's tile — during the same stroke, replacing the pitch tile.
This refutes the claim's "in both variants no tile of tool B is placed". -/
theorem c1_counterexample :
    (List.foldl step3D initState3D
      [Event3D.pointerDown (some (0, 0)), Event3D.toolClick "stand",
       Event3D.pointerMove (some (0, 0))]).model.items =
      [Item.mk "stand" 11 11] ∧
    (List.foldl step3D initState3D
      [Event3D.pointerDown (some (0, 0))]).model.items =
      [Item.mk "pitch" 11 11] ∧
    ("stand" : String) ≠ "pitch" := by
  have hfloor : (⌊(0 : ℚ) + (((24 : ℕ) : ℚ) * 2 / 2 - 2 / 2) / 2 + 1 / 100000⌋ : ℤ) = 11 := by
    norm_num [Int.floor_eq_iff]
  refine ⟨?_, ?_, by decide⟩ <;>
    simp [step3D, handlePointerEvent3D, initState3D, addItem, addItemModel,
      keepOther, getGridCoordsFromIntersection, removeItemAt, saveHistory] <;>
    norm_num [Int.floor_eq_iff]

/-- Claim C8: in both variants, clicking undo with an empty history stack
is a silent no-op: the handler returns without error and leaves the whole
state — model and history included — unchanged. -/
theorem c8_undo_empty_noop (s : State2D) (s3 : State3D)
    (h : s.history = []) (h3 : s3.history = []) :
    step2D s Event2D.undoClick = s ∧ step3D s3 Event3D.undoClick = s3 := by
  constructor
  · simp [step2D, h]
  · simp [step3D, h3]

/-- Witness for C8 at the freshly initialised states of both variants. -/
theorem c8_undo_empty_noop_witness :
    step2D (initState2D 24 18) Event2D.undoClick = initState2D 24 18 ∧
    step3D initState3D Event3D.undoClick = initState3D :=
  c8_undo_empty_noop _ _ rfl rfl

/-- The 2D grid invariant: the live model holds exactly `n * n` cells (one
tile per in-range index) with `n` equal to the editor's `gridSize`, and
every stored history snapshot deserializes to a model of that same
dimension satisfying the same cell-count equation. -/
def Inv2D (s : State2D) : Prop :=
  s.model.cells.length = s.model.n * s.model.n ∧
  s.model.n = s.gridSize ∧
  ∀ j ∈ s.history, ∃ m : Model2D,
    deserializeModel2D j = some m ∧
    m.cells.length = m.n * m.n ∧ m.n = s.gridSize

lemma inv2D_handleCellAction {s : State2D} (idx : ℕ) (h : Inv2D s) :
    Inv2D (handleCellAction s idx) := by
  obtain ⟨h1, h2, h3⟩ := h
  refine ⟨?_, ?_, ?_⟩
  · simp only [handleCellAction]
    split_ifs <;> simp [List.length_set, h1]
  · exact h2
  · intro j hj
    rcases mem_saveHistory hj with hmem | rfl
    · obtain ⟨m, hm1, hm2, hm3⟩ := h3 j hmem
      exact ⟨m, hm1, hm2, hm3⟩
    · exact ⟨s.model, by simp, h1, h2⟩

/-- Claim C9: in the 2D variant every reachable state satisfies
`cells.length = dimension * dimension` (the list holds exactly one tile at
each in-range index), the invariant holds initially and is preserved by
every event — tool clicks, paint / erase / select strokes, undo, clear and
resize — and, because resize clears the history and every stored snapshot
has the live dimension, undo can never change the model's dimension. -/
theorem c9_grid_invariant (n0 : ℕ) (px0 : ℤ) (s : State2D) (e : Event2D)
    (h : Inv2D s) :
    Inv2D (initState2D n0 px0) ∧ Inv2D (step2D s e) ∧
    (step2D s Event2D.undoClick).model.n = s.model.n := by
  obtain ⟨h1, h2, h3⟩ := h
  have hundo : Inv2D (step2D s Event2D.undoClick) ∧
      (step2D s Event2D.undoClick).model.n = s.model.n := by
    simp only [step2D]
    cases hl : s.history.getLast? with
    | none => exact ⟨⟨h1, h2, h3⟩, rfl⟩
    | some j =>
      obtain ⟨m, hm1, hm2, hm3⟩ := h3 j (mem_of_getLast?_eq hl)
      refine ⟨⟨?_, ?_, ?_⟩, ?_⟩
      · simp [hm1, hm2]
      · simp [hm1, hm3]
      · intro j' hj'
        obtain ⟨m', hm'⟩ := h3 j' (mem_of_mem_dropLast hj')
        exact ⟨m', hm'⟩
      · simp [hm1, hm3, h2]
  refine ⟨?_, ?_, hundo.2⟩
  · refine ⟨by simp [initState2D, createEmptyModel], rfl, ?_⟩
    intro j hj
    simp [initState2D] at hj
  · cases e with
    | toolClick t => exact ⟨h1, h2, h3⟩
    | pointerDown idx => exact inv2D_handleCellAction idx ⟨h1, h2, h3⟩
    | pointerEnter idx =>
      simp only [step2D]
      split
      · exact inv2D_handleCellAction idx ⟨h1, h2, h3⟩
      · exact ⟨h1, h2, h3⟩
    | pointerUp => exact ⟨h1, h2, h3⟩
    | undoClick => exact hundo.1
    | clearClick =>
      refine ⟨by simp [step2D, createEmptyModel], rfl, ?_⟩
      intro j hj
      rcases mem_saveHistory hj with hmem | rfl
      · exact h3 j hmem
      · exact ⟨s.model, by simp, h1, h2⟩
    | resizeClick vn vpx =>
      refine ⟨by simp [step2D, createEmptyModel], rfl, ?_⟩
      intro j hj
      simp only [step2D] at hj
      simp at hj

/-- Witness for C9: the fresh 24-cell-grid editor satisfies the invariant,
a clear click preserves it, and an undo leaves the dimension at 24. -/
theorem c9_grid_invariant_witness :
    Inv2D (initState2D 24 18) ∧
    Inv2D (step2D (initState2D 24 18) Event2D.clearClick) ∧
    (step2D (initState2D 24 18) Event2D.undoClick).model.n =
      (initState2D 24 18).model.n :=
  c9_grid_invariant 24 18 (initState2D 24 18) Event2D.clearClick
    ⟨by show (List.replicate (24 * 24) (Cell.obj "empty" none)).length = 24 * 24
        rw [List.length_replicate],
     rfl, by simp [initState2D]⟩

end Stadium
